import Mathlib

/-!
Verification development for the certificate-management core of
`controller-manager-library`:

* `pkg/certmgmt/certificate.go` — the certificate engine (`UpdateCertificate`,
  `IsValid`, `Valid`, `NewSignedCert`);
* `pkg/certs/access/access.go` — the polling watcher (`AccessSource`) and the
  file watcher (`CertWatcher`, package `file`).

The embedding is shallow.  Byte blobs (`[]byte`) become `List Nat`; Go's
nil / non-nil distinction on blobs becomes `Option Bytes`.  All calls into the
external cryptography / PEM / filesystem libraries (Go standard library,
client-go, pkiutil, fsnotify) are modelled as fields of an environment
structure `Env`: the repository's own control flow is translated literally,
while the behaviour of the external collaborators stays abstract and enters
theorems only through explicit hypotheses.  Randomness (`pkiutil.NewPrivateKey`,
`cryptorand.Int`) is modelled by indexing each draw with a counter that is
threaded through the computation, and the clock (`time.Now()`) is the field
`Env.now`.
-/

set_option autoImplicit false

/-- Opaque byte blob (`[]byte` contents). -/
abbrev Bytes := List Nat

/-- An RSA private key, abstract (identified by the index of the random draw
that produced it, or by an arbitrary id inside the environment). -/
abbrev RsaKey := Nat

/-- A parsed `tls.Certificate` (key pair ready for handshakes), abstract. -/
abbrev TlsCert := Nat

/-- The modelled fields of a Go `x509.Certificate`.  Key usage is the Go
bitmask; extended key usages are the Go enum values. -/
structure X509Cert where
  commonName : String := ""
  organization : List String := []
  dnsNames : List String := []
  ipAddresses : List Bytes := []
  serial : Nat := 0
  notBefore : Int := 0
  notAfter : Int := 0
  keyUsage : Nat := 0
  extKeyUsage : List Nat := []
deriving Repr, DecidableEq, Inhabited

/-- Go `x509.KeyUsageDigitalSignature = 1 << 0`. -/
def x509.KeyUsageDigitalSignature : Nat := 1

/-- Go `x509.KeyUsageKeyEncipherment = 1 << 2`. -/
def x509.KeyUsageKeyEncipherment : Nat := 4

/-- Go `x509.ExtKeyUsageServerAuth = 1`. -/
def x509.ExtKeyUsageServerAuth : Nat := 1

/-- Go durations are integer nanoseconds (`time.Duration` is an `int64`). -/
def time.second : Int := 1000000000

/-- `time.Minute` in nanoseconds. -/
def time.minute : Int := 60 * time.second

/-- `time.Hour` in nanoseconds. -/
def time.hour : Int := 60 * time.minute

/-- The `info` struct of `certificate.go` (also the `CertificateInfo`
interface data): four PEM blobs, each possibly nil. -/
structure Info where
  cert : Option Bytes := none
  key : Option Bytes := none
  cacert : Option Bytes := none
  cakey : Option Bytes := none
deriving Repr, DecidableEq, Inhabited

/-- The fields of `certmgmt.Config` used by the engine and the watchers. -/
structure Config where
  commonName : String := ""
  dnsNames : List String := []
  validity : Int := 0
  rest : Int := 0
deriving Repr, Inhabited

/-- The fields of client-go's `cert.Config` used by `NewSignedCert`. -/
structure CertConfig where
  commonName : String := ""
  organization : List String := []
  dnsNames : List String := []
  ips : List Bytes := []
  usages : List Nat := []
deriving Repr, DecidableEq, Inhabited

/-- The external collaborators of the engine and the watchers: standard
cryptography / PEM library calls, the random source and the clock.  Each
fallible call returns `Except String`; the random draws take the index of the
draw. -/
structure Env where
  /-- `time.Now()`, as nanoseconds since some epoch. -/
  now : Int
  /-- `newPrivateKey` (pkiutil.NewPrivateKey + the RSA type assertion),
  indexed by the random draw counter. -/
  newPrivateKey : Nat → Except String RsaKey
  /-- `cryptorand.Int(cryptorand.Reader, MaxInt64)`, indexed by the draw
  counter. -/
  randSerial : Nat → Except String Nat
  /-- `encodePrivateKeyPEM` (PKCS1 marshal + PEM encode). -/
  encodePrivateKeyPEM : RsaKey → Bytes
  /-- `pkiutil.EncodeCertPEM`. -/
  encodeCertPEM : X509Cert → Bytes
  /-- `cert.NewSelfSignedCACert` for a given common name and key. -/
  newSelfSignedCACert : String → RsaKey → Except String X509Cert
  /-- `keyutil.ParsePrivateKeyPEM` followed by the `*rsa.PrivateKey` type
  assertion: `.ok (some k)` for an RSA key, `.ok none` for a key of another
  type, `.error` when parsing fails. -/
  parsePrivateKeyPEM : Bytes → Except String (Option RsaKey)
  /-- `cert.ParseCertsPEM`. -/
  parseCertsPEM : Bytes → Except String (List X509Cert)
  /-- `tls.X509KeyPair`. -/
  x509KeyPair : Bytes → Bytes → Except String TlsCert
  /-- `x509.CertPool.AppendCertsFromPEM` (whether at least one certificate
  was added). -/
  appendCertsFromPEM : Bytes → Bool
  /-- `pem.Decode`, returning the bytes of the first block. -/
  pemDecode : Bytes → Option Bytes
  /-- `x509.ParseCertificate`. -/
  parseCertificate : Bytes → Except String X509Cert
  /-- `x509.CreateCertificate template parent publicKey caKey`, returning DER
  bytes. -/
  createCertificate : X509Cert → X509Cert → RsaKey → RsaKey → Except String Bytes
  /-- `x509.Certificate.Verify` with a DNS name, a pool built from the given
  CA PEM, and the given verification time. -/
  verify : X509Cert → String → Bytes → Int → Bool

/-- `Valid` (certificate.go lines 181-217): the key/cert/CA byte-level
validity check.  All library failures collapse to `false`; the verification
time is `time.Now().Add(duration)`. -/
def Valid (env : Env) (key cert cacert : Bytes) (dnsname : String)
    (duration : Int) : Bool :=
  if cert.length = 0 ∨ key.length = 0 ∨ cacert.length = 0 then
    false
  else
    match env.x509KeyPair cert key with
    | .error _ => false
    | .ok _ =>
      if env.appendCertsFromPEM cacert = false then
        false
      else
        match env.pemDecode cert with
        | none => false
        | some blockBytes =>
          match env.parseCertificate blockBytes with
          | .error _ => false
          | .ok c => env.verify c dnsname cacert (env.now + duration)

/-- `IsValid` (certificate.go lines 169-179): nil checks on the bundle,
then `Valid`. -/
def IsValid (env : Env) (i : Info) (dnsname : String) (duration : Int) : Bool :=
  if i.cert = none ∨ i.key = none then
    false
  else if i.cacert = none then
    false
  else
    Valid env (i.key.getD []) (i.cert.getD []) (i.cacert.getD []) dnsname duration

/-- The certificate template built by `NewSignedCert`
(certificate.go lines 232-244). -/
def certTmpl (env : Env) (cfg : CertConfig) (serial : Nat) (caCert : X509Cert)
    (duration : Int) : X509Cert :=
  { commonName := cfg.commonName
    organization := cfg.organization
    dnsNames := cfg.dnsNames
    ipAddresses := cfg.ips
    serial := serial
    notBefore := caCert.notBefore
    notAfter := env.now + duration
    keyUsage := x509.KeyUsageKeyEncipherment ||| x509.KeyUsageDigitalSignature
    extKeyUsage := cfg.usages }

/-- `NewSignedCert` (certificate.go lines 220-249).  The serial number is
drawn from `cryptorand.Int(Reader, MaxInt64)` before the defensive checks,
exactly as in the source; the produced certificate is the parse of the DER
produced by `x509.CreateCertificate` on the template.  Returns the new draw
counter along with the certificate. -/
def NewSignedCert (env : Env) (cfg : CertConfig) (key : RsaKey)
    (caCert : X509Cert) (caKey : RsaKey) (duration : Int) (r : Nat) :
    Except String (X509Cert × Nat) :=
  match env.randSerial r with
  | .error e => .error e
  | .ok serial =>
    if cfg.commonName.length = 0 then
      .error "must specify a CommonName"
    else if cfg.usages.length = 0 then
      .error "must specify at least one ExtKeyUsage"
    else
      match env.createCertificate (certTmpl env cfg serial caCert duration)
          caCert key caKey with
      | .error e => .error e
      | .ok der =>
        match env.parseCertificate der with
        | .error e => .error e
        | .ok c => .ok (c, r + 1)

/-- The CA acceptability check of `UpdateCertificate` (certificate.go lines
110-128): `ok` is the self-referential `Valid` of the CA pair with a fixed
5-day lookahead, refined by the CA-key PEM parse (with RSA type assertion)
and the CA-certificate parse; the parsed key and first parsed certificate
are returned for reuse. -/
def caCheck (env : Env) (i : Info) : Bool × Option RsaKey × Option X509Cert :=
  match i.cacert with
  | none => (false, none, none)
  | some cab =>
    if Valid env (i.cakey.getD []) cab cab "" (5 * time.hour * 24) then
      let kr : Option RsaKey × Bool :=
        match env.parsePrivateKeyPEM (i.cakey.getD []) with
        | .error _ => (none, false)
        | .ok k => (k, k.isSome)
      match env.parseCertsPEM cab with
      | .error _ => (false, kr.1, none)
      | .ok certs => (kr.2, kr.1, some (certs.headD default))
    else
      (false, none, none)

/-- The `cert.Config` literal passed to `NewSignedCert` by
`UpdateCertificate` (certificate.go lines 151-158): the policy's common
name and DNS names with the server-authentication extended key usage. -/
def serverCertConfig (cfg : Config) : CertConfig :=
  { commonName := cfg.commonName
    dnsNames := cfg.dnsNames
    usages := [x509.ExtKeyUsageServerAuth] }

/-- Server key and certificate issuance, the common tail of the renewal
branch of `UpdateCertificate` (certificate.go lines 144-164): generate the
server key, then sign the server certificate with the given CA, overwriting
the `key` and `cert` fields of the bundle. -/
def issueServer (env : Env) (cfg : Config) (bundle : Info) (caKey : RsaKey)
    (caCert : X509Cert) (r : Nat) : Except String (Option Info × Bool × Nat) :=
  match env.newPrivateKey r with
  | .error e => .error ("failed to create the server key pair: " ++ e)
  | .ok newKey =>
    match NewSignedCert env (serverCertConfig cfg)
        newKey caCert caKey cfg.validity (r + 1) with
    | .error e => .error ("failed to create the server certmgmt: " ++ e)
    | .ok (newCert, rFinal) =>
      .ok (some { bundle with
        key := some (env.encodePrivateKeyPEM newKey)
        cert := some (env.encodeCertPEM newCert) }, true, rFinal)

/-- `UpdateCertificate` (certificate.go lines 92-167).  The boolean in the
result is `true` exactly when the renewal branch ran and a fresh `info`
struct was allocated — in the Go source the caller detects this by the
pointer comparison `info != new`, which holds precisely in that case.  The
fast path (`IsValid` succeeds) returns the input value itself unchanged.
The working bundle `new0` is the field-by-field copy of the input (lines
93-99), which is value-equal to it. -/
def UpdateCertificate (env : Env) (old : Option Info) (cfg : Config) (r : Nat) :
    Except String (Option Info × Bool × Nat) :=
  let new0 : Info := old.getD {}
  if IsValid env new0 (cfg.dnsNames.headD "") cfg.rest then
    .ok (old, false, r)
  else
    match caCheck env new0 with
    | (ok, caKeyOpt, caCertOpt) =>
      if new0.cacert = none ∨ ok = false then
        match env.newPrivateKey r with
        | .error e => .error ("failed to create the CA key pair: " ++ e)
        | .ok caKey =>
          match env.newSelfSignedCACert
              ("webhook-certmgmt-ca:" ++ cfg.commonName) caKey with
          | .error e => .error ("failed to create the CA certmgmt: " ++ e)
          | .ok caCert =>
            issueServer env cfg
              { new0 with
                cakey := some (env.encodePrivateKeyPEM caKey)
                cacert := some (env.encodeCertPEM caCert) }
              caKey caCert (r + 1)
      else
        issueServer env cfg new0 (caKeyOpt.getD 0) (caCertOpt.getD default) r

/-! ## The polling watcher (`AccessSource`, access.go lines 30-125) -/

/-- The per-handshake client hello metadata (`tls.ClientHelloInfo`), ignored
by both accessors. -/
structure ClientHelloInfo where
  serverName : String := ""
deriving Repr, Inhabited

/-- The observable outcome of one `AccessSource.ReadCertificate` call:
the in-memory certificate afterwards, the returned error, whether the store
`Set`, the key-pair parse and the lock acquisition were performed, and the
random-draw counter afterwards. -/
structure ReadOutcome where
  current : Option TlsCert
  err : Option String
  setCalled : Bool
  parseCalled : Bool
  lockAcquired : Bool
  rng : Nat
deriving Repr, DecidableEq

/-- `AccessSource.ReadCertificate` (access.go lines 54-81).  The store is
modelled by the result of this call's `Get` (`getRes`) and by the behaviour
of `Set` on the bundle handed to it (`setRes`); `cur` is the current
in-memory certificate (`this.currentCert`).  The Go condition `info != new`
is pointer inequality, which holds exactly when `UpdateCertificate`
allocated a fresh bundle, i.e. exactly when its boolean is `true`.  On the
write path Go dereferences `info` unconditionally; a `changed = false`
result passed `IsValid`, hence is non-nil, so `getD {}` is never the
operative value there when `cur = none` forced the write. -/
def AccessSource.ReadCertificate (env : Env) (cfg : Config)
    (getRes : Except String (Option Info))
    (setRes : Option Info → Except String Unit)
    (cur : Option TlsCert) (r : Nat) : ReadOutcome :=
  match getRes with
  | .error e => ⟨cur, some e, false, false, false, r⟩
  | .ok info =>
    match UpdateCertificate env info cfg r with
    | .error e => ⟨cur, some e, false, false, false, r⟩
    | .ok (newInfo, changed, rNew) =>
      if changed = true ∨ cur = none then
        match setRes newInfo with
        | .error e => ⟨cur, some e, true, false, false, rNew⟩
        | .ok _ =>
          let i := newInfo.getD {}
          match env.x509KeyPair (i.cert.getD []) (i.key.getD []) with
          | .error e => ⟨cur, some e, true, true, false, rNew⟩
          | .ok c => ⟨some c, none, true, true, true, rNew⟩
      else
        ⟨cur, none, false, false, false, rNew⟩

/-- `AccessSource.GetCertificate` (access.go lines 84-88): returns the
current certificate under the lock, always with a nil error. -/
def AccessSource.GetCertificate (cur : Option TlsCert) (_hello : ClientHelloInfo) :
    Option TlsCert × Option String :=
  (cur, none)

/-- `time.Minute * 10`, the upper bound on the refresh interval. -/
def tenMinutes : Int := 10 * time.minute

/-- The normal refresh interval chosen by `AccessSource.watch`
(access.go lines 95-98): `Rest`, capped at ten minutes. -/
def AccessSource.watchInterval (rest : Int) : Int :=
  if rest > tenMinutes then tenMinutes else rest

/-- One timer tick of `AccessSource.watch` (access.go lines 111-122):
given the normal interval `d`, the current back-off and whether this
tick's `ReadCertificate` failed, returns the delay until the next tick
and the new back-off.  `backoff * 3 / 2` is Go integer (nanosecond)
arithmetic. -/
def AccessSource.watchTick (d : Int) (backoff : Int) (failed : Bool) :
    Int × Int :=
  if failed then (backoff, backoff * 3 / 2)
  else (d, time.second)

/-- The back-off in force after `n` consecutive failed ticks, starting from
the initial one-second back-off (access.go line 99). -/
def AccessSource.backoffIter : Nat → Int
  | 0 => time.second
  | n + 1 => (AccessSource.watchTick 0 (AccessSource.backoffIter n) true).2

/-! ## The file watcher (`CertWatcher`, package `file`, access.go
lines 159-295) -/

/-- `CertWatcher.ReadCertificate` (access.go lines 250-263): load the key
pair from disk (`loadRes` is the result of `tls.LoadX509KeyPair` on the two
configured paths); on success replace the current certificate under the
lock, on failure return the error leaving it untouched. -/
def CertWatcher.ReadCertificate (loadRes : Except String TlsCert)
    (cur : Option TlsCert) : Option TlsCert × Option String :=
  match loadRes with
  | .error e => (cur, some e)
  | .ok cert => (some cert, none)

/-- `CertWatcher.GetCertificate` (access.go lines 198-202): returns the
current certificate under the lock, always with a nil error. -/
def CertWatcher.GetCertificate (cur : Option TlsCert) (_hello : ClientHelloInfo) :
    Option TlsCert × Option String :=
  (cur, none)

/-- The observable outcome of `CertWatcher.start` (access.go lines 205-222):
its returned error, whether the `watch` event-consumption goroutine was
spawned, and whether it executed the blocking `<-stopCh` receive before
returning. -/
structure StartResult where
  err : Option String
  loopStarted : Bool
  waitedForStop : Bool
deriving Repr, DecidableEq

/-- `CertWatcher.start` (access.go lines 205-222): add a filesystem watch
for the certificate path, then for the key path (`addCert` / `addKey` are
the errors of the two `watcher.Add` calls); on the first failure return
that error at once.  Otherwise spawn the `watch` goroutine, block on the
stop channel, and finally return the result of `watcher.Close`
(`closeRes`). -/
def CertWatcher.start (addCert addKey : Option String)
    (closeRes : Option String) : StartResult :=
  match addCert with
  | some e => ⟨some e, false, false⟩
  | none =>
    match addKey with
    | some e => ⟨some e, false, false⟩
    | none => ⟨closeRes, true, true⟩

/-- The observable outcome of a successful `file.New`: the certificate
loaded by the initial synchronous read, whether the event loop was spawned,
and whether the constructor executed the blocking wait on the stop
channel before returning to its caller. -/
structure NewResult where
  current : Option TlsCert
  loopStarted : Bool
  waitedForStop : Bool
deriving Repr, DecidableEq

/-- `file.New` (access.go lines 173-195): one synchronous
`ReadCertificate` which must succeed, then `fsnotify.NewWatcher`
(`newWatcherErr`), then the call `cw.start(ctx.Done())` whose return value
— including any `watcher.Add` error — is discarded, after which `(cw, nil)`
is returned. -/
def file.New (loadRes : Except String TlsCert) (newWatcherErr : Option String)
    (addCert addKey : Option String) (closeRes : Option String) :
    Except String NewResult :=
  match CertWatcher.ReadCertificate loadRes none with
  | (_, some e) => .error e
  | (cur, none) =>
    match newWatcherErr with
    | some e => .error e
    | none =>
      let s := CertWatcher.start addCert addKey closeRes
      .ok ⟨cur, s.loopStarted, s.waitedForStop⟩

/-! ## Concrete instances used to witness the theorems

A toy instantiation of the external collaborators: every library call
succeeds, verification always passes, and encodings are simple tagged
lists.  It serves only to evaluate the embedded code on concrete inputs. -/

/-- A concrete CA certificate returned by the toy `NewSelfSignedCACert`. -/
def toyCA : X509Cert :=
  { commonName := "webhook-certmgmt-ca:cn", notBefore := 0, notAfter := 1000000 }

/-- A concrete leaf certificate returned by the toy `ParseCertificate`. -/
def toyLeaf : X509Cert :=
  { commonName := "cn", dnsNames := ["cn"], serial := 0, notBefore := 0,
    notAfter := 100, keyUsage := 5, extKeyUsage := [1] }

/-- Toy environment: all external calls succeed. -/
def toyEnv : Env where
  now := 0
  newPrivateKey := fun n => .ok n
  randSerial := fun _ => .ok 0
  encodePrivateKeyPEM := fun k => [1, k]
  encodeCertPEM := fun c => [2, c.serial]
  newSelfSignedCACert := fun _ _ => .ok toyCA
  parsePrivateKeyPEM := fun _ => .ok (some 0)
  parseCertsPEM := fun _ => .ok [toyCA]
  x509KeyPair := fun _ _ => .ok 0
  appendCertsFromPEM := fun _ => true
  pemDecode := fun b => some b
  parseCertificate := fun _ => .ok toyLeaf
  createCertificate := fun _ _ _ _ => .ok [3]
  verify := fun _ _ _ _ => true

/-- The leaf certificate of the round-tripping toy environment, carrying a
given serial number. -/
def rtLeaf (serial : Nat) : X509Cert :=
  { commonName := "cn", dnsNames := ["cn"], serial := serial, notBefore := 0,
    notAfter := 100, keyUsage := 5, extKeyUsage := [1] }

/-- A toy environment whose `CreateCertificate`/`ParseCertificate` pair
round-trips the template fields (for the concrete templates used in the
witnesses): the DER encodes the serial, parsing restores the leaf. -/
def rtEnv : Env :=
  { toyEnv with
    createCertificate := fun t _ _ _ => .ok [t.serial]
    parseCertificate := fun b => .ok (rtLeaf (b.headD 0)) }

/-- A concrete healthy bundle (all four fields non-empty). -/
def info0 : Info := ⟨some [1], some [1], some [1], some [1]⟩

/-- A concrete bundle with a CA pair but no server pair. -/
def info1 : Info := ⟨none, none, some [9], some [1, 7]⟩

/-- A concrete issuance policy. -/
def cfg0 : Config := ⟨"cn", ["cn"], 100, 10⟩

/-- The bundle produced by a fresh issuance inside `UpdateCertificate`:
all four fields newly populated from the given CA key, CA certificate,
server key and signed leaf certificate.  This is the value the renewal
branch returns; it is introduced only to state theorems. -/
def freshBundle (env : Env) (caKey : RsaKey) (caCert : X509Cert)
    (serverKey : RsaKey) (leaf : X509Cert) : Info :=
  { cert := some (env.encodeCertPEM leaf)
    key := some (env.encodePrivateKeyPEM serverKey)
    cacert := some (env.encodeCertPEM caCert)
    cakey := some (env.encodePrivateKeyPEM caKey) }

/-! ## Helper lemmas (shared) -/

/-- The fast path of `UpdateCertificate`: a working bundle that passes
`IsValid` is returned as-is with no change reported and no random draw. -/
theorem updateCertificate_valid (env : Env) (cfg : Config) (old : Info)
    (r : Nat)
    (hv : IsValid env old (cfg.dnsNames.headD "") cfg.rest = true) :
    UpdateCertificate env (some old) cfg r = .ok (some old, false, r) := by
  unfold UpdateCertificate
  dsimp only [Option.getD]
  rw [if_pos hv]

/-- `Valid` succeeds only if the CA pool could be built, i.e.
`AppendCertsFromPEM` returned `true`. -/
theorem valid_append (env : Env) (key cert cacert : Bytes) (d : String)
    (t : Int) (h : Valid env key cert cacert d t = true) :
    env.appendCertsFromPEM cacert = true := by
  unfold Valid at h
  split at h
  · exact absurd h (by simp)
  · cases hkp : env.x509KeyPair cert key with
    | error e => rw [hkp] at h; exact absurd h (by simp)
    | ok c =>
      rw [hkp] at h
      by_cases hap : env.appendCertsFromPEM cacert = false
      · rw [if_pos hap] at h; exact absurd h (by simp)
      · simpa using hap

/-! ## Claim theorems -/

/-- C1: for every non-nil input bundle that passes `IsValid` with the first
configured DNS name and the configured renewal lookahead (`policy.Rest`),
`UpdateCertificate` returns the input bundle itself, reports no change
(fresh-allocation flag `false`), draws no randomness, and leaves all four
fields exactly as given. -/
theorem UpdateCertificate_fast_path (env : Env) (cfg : Config) (old : Info)
    (r : Nat) (hdns : cfg.dnsNames ≠ [])
    (hv : IsValid env old (cfg.dnsNames.headD "") cfg.rest = true) :
    UpdateCertificate env (some old) cfg r = .ok (some old, false, r) :=
  updateCertificate_valid env cfg old r hv

/-- Witness for C1: a concrete healthy bundle is returned unchanged. -/
theorem UpdateCertificate_fast_path_w :
    UpdateCertificate toyEnv (some info0) cfg0 0 = .ok (some info0, false, 0) :=
  UpdateCertificate_fast_path toyEnv cfg0 info0 0 (by decide) (by decide)

/-- C3 counterexample: when no certificate has ever loaded, both accessors
return the absent value together with a *nil* error — not an error as the
claim states. -/
theorem GetCertificate_absent_nil_error :
    AccessSource.GetCertificate none {} = (none, none) ∧
    CertWatcher.GetCertificate none {} = (none, none) :=
  ⟨rfl, rfl⟩

/-- C3 (amended): every call of either accessor returns the currently
loaded certificate and always a nil error; in particular when no
certificate has ever loaded it returns the absent value with a nil error. -/
theorem GetCertificate_returns_current (cur : Option TlsCert)
    (hello : ClientHelloInfo) :
    AccessSource.GetCertificate cur hello = (cur, none) ∧
    CertWatcher.GetCertificate cur hello = (cur, none) :=
  ⟨rfl, rfl⟩

/-- C7: in a refresh cycle where the update reports no change and a
certificate is already loaded, `AccessSource.ReadCertificate` performs no
store write, no key-pair parse and no lock acquisition, leaves the
in-memory certificate untouched and returns no error; the branch is decided
by the change flag (the Go `info != new` pointer comparison) together with
`currentCert` being non-nil. -/
theorem ReadCertificate_no_change_frame (env : Env) (cfg : Config)
    (info newInfo : Option Info) (setRes : Option Info → Except String Unit)
    (cur : Option TlsCert) (r rNew : Nat)
    (hupd : UpdateCertificate env info cfg r = .ok (newInfo, false, rNew))
    (hcur : cur ≠ none) :
    AccessSource.ReadCertificate env cfg (.ok info) setRes cur r =
      ⟨cur, none, false, false, false, rNew⟩ := by
  unfold AccessSource.ReadCertificate
  dsimp only
  rw [hupd]
  simp [hcur]

/-- Witness for C7: a healthy bundle and a loaded certificate produce the
do-nothing outcome. -/
theorem ReadCertificate_no_change_frame_w :
    AccessSource.ReadCertificate toyEnv cfg0 (.ok (some info0))
      (fun _ => .ok ()) (some 5) 0 = ⟨some 5, none, false, false, false, 0⟩ :=
  ReadCertificate_no_change_frame toyEnv cfg0 (some info0) (some info0)
    (fun _ => .ok ()) (some 5) 0 0 rfl (by decide)

/-- C9: evaluating `file.New` at the failing input (initial load, watcher
creation and both watch additions succeed; the context is not yet
cancelled): the constructor spawns the event loop but then executes the
blocking receive on the stop channel *before* returning — it does not
terminate until cancellation, contradicting the specified behaviour. -/
theorem fileNew_waits_for_stop :
    file.New (.ok 1) none none none none = .ok ⟨some 1, true, true⟩ :=
  rfl

/-- C10: if adding the filesystem watch for either of the two paths fails
during construction, the error is discarded: `file.New` still returns a
watcher with a nil error, and the event-consumption loop is never
started. -/
theorem fileNew_discards_add_error (c : TlsCert) (e : String)
    (addKey closeRes : Option String) :
    file.New (.ok c) none (some e) addKey closeRes =
      .ok ⟨some c, false, false⟩ ∧
    file.New (.ok c) none none (some e) closeRes =
      .ok ⟨some c, false, false⟩ :=
  ⟨rfl, rfl⟩

/-- C8 (amended): the normal refresh interval is `min(Rest, 10 minutes)`;
three consecutive failures are spaced at 1 s, 1.5 s and 2.25 s; each failed
tick multiplies the back-off by 3/2 in integer nanosecond arithmetic
(exactly 1.5 whenever no truncation occurs, as in the first nine
consecutive failures); a successful tick schedules the normal interval and
resets the back-off to one second. -/
theorem watch_schedule (d b : Int) :
    (∀ rest : Int, AccessSource.watchInterval rest = min rest tenMinutes) ∧
    ((AccessSource.watchTick d (AccessSource.backoffIter 0) true).1 =
        time.second ∧
      (AccessSource.watchTick d (AccessSource.backoffIter 1) true).1 =
        1500000000 ∧
      (AccessSource.watchTick d (AccessSource.backoffIter 2) true).1 =
        2250000000) ∧
    (∀ n : Nat, AccessSource.backoffIter (n + 1) =
        AccessSource.backoffIter n * 3 / 2) ∧
    AccessSource.watchTick d b false = (d, time.second) := by
  refine ⟨?_, ⟨?_, ?_, ?_⟩, ?_, ?_⟩
  · intro rest
    unfold AccessSource.watchInterval
    rw [min_def]
    split <;> split <;> omega
  · simp [AccessSource.watchTick, AccessSource.backoffIter]
  · simp [AccessSource.watchTick, AccessSource.backoffIter, time.second]
  · simp [AccessSource.watchTick, AccessSource.backoffIter, time.second]
  · intro n
    simp [AccessSource.backoffIter, AccessSource.watchTick]
  · simp [AccessSource.watchTick]

/-- C8 counterexample: the back-off is *not* multiplied by exactly 1.5 on
every consecutive failure — at the tenth consecutive failure the integer
nanosecond division truncates, so `2 · backoff₁₀ ≠ 3 · backoff₉`. -/
theorem backoff_not_exactly_three_halves :
    2 * AccessSource.backoffIter 10 ≠ 3 * AccessSource.backoffIter 9 := by
  decide

/-- C2: for both watchers, a failed refresh leaves the in-memory current
certificate unchanged: whenever `AccessSource.ReadCertificate` returns an
error (store get, update, store set, or key-pair parse) or
`CertWatcher.ReadCertificate` returns an error (disk load), the stored
`currentCert` is exactly what it was before the call. -/
theorem ReadCertificate_error_preserves_current :
    (∀ (env : Env) (cfg : Config) (getRes : Except String (Option Info))
        (setRes : Option Info → Except String Unit) (cur : Option TlsCert)
        (r : Nat) (e : String),
      (AccessSource.ReadCertificate env cfg getRes setRes cur r).err = some e →
      (AccessSource.ReadCertificate env cfg getRes setRes cur r).current = cur) ∧
    (∀ (loadRes : Except String TlsCert) (cur : Option TlsCert) (e : String),
      (CertWatcher.ReadCertificate loadRes cur).2 = some e →
      (CertWatcher.ReadCertificate loadRes cur).1 = cur) := by
  constructor
  · intro env cfg getRes setRes cur r e
    unfold AccessSource.ReadCertificate
    rcases getRes with e' | info
    · intro _; rfl
    · dsimp only
      rcases hU : UpdateCertificate env info cfg r with e' | ⟨newInfo, changed, rNew⟩
      · intro _; rfl
      · dsimp only
        by_cases hc : changed = true ∨ cur = none
        · rw [if_pos hc]
          rcases hS : setRes newInfo with e' | u
          · intro _; rfl
          · dsimp only
            rcases hX : env.x509KeyPair ((newInfo.getD {}).cert.getD [])
                ((newInfo.getD {}).key.getD []) with e'' | c
            · intro _; rfl
            · intro h; exact absurd h (by simp)
        · rw [if_neg hc]
          intro h; exact absurd h (by simp)
  · intro loadRes cur e
    rcases loadRes with e' | c
    · intro _; rfl
    · intro h; exact absurd h (by simp [CertWatcher.ReadCertificate])

/-- Witness for C2: a failing store get and a failing disk load both leave
the previously loaded certificate in place. -/
theorem ReadCertificate_error_preserves_current_w :
    (AccessSource.ReadCertificate toyEnv cfg0 (.error "boom")
        (fun _ => .ok ()) (some 5) 0).current = some 5 ∧
    (CertWatcher.ReadCertificate (.error "eio") (some 7)).1 = some 7 :=
  ⟨ReadCertificate_error_preserves_current.1 toyEnv cfg0 (.error "boom")
      (fun _ => .ok ()) (some 5) 0 "boom" rfl,
    ReadCertificate_error_preserves_current.2 (.error "eio") (some 7) "eio" rfl⟩

/-- Helper: when key generation, serial drawing, certificate creation and
parsing all succeed, `issueServer` returns the input bundle with freshly
issued server key and certificate and reports a change, consuming two
random draws. -/
theorem issueServer_ok (env : Env) (cfg : Config) (b : Info) (caKey : RsaKey)
    (caCert : X509Cert) (r : Nat)
    (hcn : cfg.commonName.length ≠ 0)
    (hkg : ∀ n, ∃ k, env.newPrivateKey n = .ok k)
    (hrs : ∀ n, ∃ s, env.randSerial n = .ok s)
    (hcc : ∀ t ca k ck, ∃ der c, env.createCertificate t ca k ck = .ok der ∧
        env.parseCertificate der = .ok c) :
    ∃ sk leaf, issueServer env cfg b caKey caCert r =
      .ok (some { b with key := some (env.encodePrivateKeyPEM sk),
                         cert := some (env.encodeCertPEM leaf) }, true, r + 2) := by
  obtain ⟨sk, hsk⟩ := hkg r
  obtain ⟨s, hs⟩ := hrs (r + 1)
  obtain ⟨der, leaf, hder, hleaf⟩ :=
    hcc (certTmpl env (serverCertConfig cfg) s caCert cfg.validity) caCert sk caKey
  refine ⟨sk, leaf, ?_⟩
  unfold issueServer NewSignedCert
  rw [hsk]
  dsimp only
  rw [hs]
  dsimp only
  rw [if_neg (by simpa [serverCertConfig] using hcn),
    if_neg (by simp [serverCertConfig])]
  rw [hder]
  dsimp only
  rw [hleaf]

/-- C6 (amended): every server certificate produced by `NewSignedCert` as
invoked by `UpdateCertificate` carries the serial number drawn from the
crypto random source — a non-negative integer below 2^63 − 1, possibly
zero — `NotBefore` equal to the signing CA certificate's `NotBefore`,
`NotAfter` equal to issuance time plus the configured validity, key usage
{key encipherment, digital signature}, and extended key usage
{server authentication}, for any configured validity.  The hypotheses state
the external library facts: the range of `cryptorand.Int(Reader, MaxInt64)`
and that `CreateCertificate`/`ParseCertificate` round-trip the template
fields. -/
theorem NewSignedCert_fields (env : Env) (cfg : Config) (key caKey : RsaKey)
    (caCert : X509Cert) (r s : Nat) (der : Bytes)
    (hs : env.randSerial r = .ok s)
    (hrange : s < 2 ^ 63 - 1)
    (hcn : cfg.commonName.length ≠ 0)
    (hcr : env.createCertificate
        (certTmpl env (serverCertConfig cfg) s caCert cfg.validity)
        caCert key caKey = .ok der)
    (hpr : env.parseCertificate der = .ok
        (certTmpl env (serverCertConfig cfg) s caCert cfg.validity)) :
    NewSignedCert env (serverCertConfig cfg) key caCert caKey cfg.validity r =
      .ok (certTmpl env (serverCertConfig cfg) s caCert cfg.validity, r + 1) ∧
    (certTmpl env (serverCertConfig cfg) s caCert cfg.validity).serial = s ∧
    (certTmpl env (serverCertConfig cfg) s caCert cfg.validity).serial <
      2 ^ 63 - 1 ∧
    (certTmpl env (serverCertConfig cfg) s caCert cfg.validity).notBefore =
      caCert.notBefore ∧
    (certTmpl env (serverCertConfig cfg) s caCert cfg.validity).notAfter =
      env.now + cfg.validity ∧
    (certTmpl env (serverCertConfig cfg) s caCert cfg.validity).keyUsage =
      (x509.KeyUsageKeyEncipherment ||| x509.KeyUsageDigitalSignature) ∧
    (certTmpl env (serverCertConfig cfg) s caCert cfg.validity).extKeyUsage =
      [x509.ExtKeyUsageServerAuth] := by
  refine ⟨?_, by simp [certTmpl], by simpa [certTmpl] using hrange,
    by simp [certTmpl], by simp [certTmpl], by simp [certTmpl],
    by simp [certTmpl, serverCertConfig]⟩
  unfold NewSignedCert
  rw [hs]
  dsimp only
  rw [if_neg (by simpa [serverCertConfig] using hcn),
    if_neg (by simp [serverCertConfig])]
  rw [hcr]
  dsimp only
  rw [hpr]

/-- Witness for C6 (amended), at the round-tripping toy environment with
the random source returning 0. -/
theorem NewSignedCert_fields_w :
    NewSignedCert rtEnv (serverCertConfig cfg0) 1 {} 0 cfg0.validity 0 =
      .ok (certTmpl rtEnv (serverCertConfig cfg0) 0 {} cfg0.validity, 1) ∧
    (certTmpl rtEnv (serverCertConfig cfg0) 0 {} cfg0.validity).serial = 0 ∧
    (certTmpl rtEnv (serverCertConfig cfg0) 0 {} cfg0.validity).serial <
      2 ^ 63 - 1 ∧
    (certTmpl rtEnv (serverCertConfig cfg0) 0 {} cfg0.validity).notBefore =
      ({} : X509Cert).notBefore ∧
    (certTmpl rtEnv (serverCertConfig cfg0) 0 {} cfg0.validity).notAfter =
      rtEnv.now + cfg0.validity ∧
    (certTmpl rtEnv (serverCertConfig cfg0) 0 {} cfg0.validity).keyUsage =
      (x509.KeyUsageKeyEncipherment ||| x509.KeyUsageDigitalSignature) ∧
    (certTmpl rtEnv (serverCertConfig cfg0) 0 {} cfg0.validity).extKeyUsage =
      [x509.ExtKeyUsageServerAuth] :=
  NewSignedCert_fields rtEnv cfg0 1 0 {} 0 0 [0] rfl (by decide) (by decide)
    rfl rfl

/-- C6 counterexample: the serial number is *not* always positive — when
the crypto random source returns 0 (a value `cryptorand.Int(Reader,
MaxInt64)` can produce), the certificate issued by `NewSignedCert` has
serial number 0. -/
theorem NewSignedCert_serial_zero :
    NewSignedCert rtEnv (serverCertConfig cfg0) 1 {} 0 cfg0.validity 0 =
      .ok (rtLeaf 0, 1) ∧ (rtLeaf 0).serial = 0 :=
  ⟨rfl, rfl⟩

/-- C4: `UpdateCertificate(nil, policy)` issues a fresh CA and server pair,
returning a bundle in which all four fields are populated and reporting a
change; assuming the freshly issued bundle passes validation (the guarantee
of the external crypto library that the spec relies on), feeding that
output straight back in yields the same bundle with no change reported. -/
theorem UpdateCertificate_fresh_issuance (env : Env) (cfg : Config) (r : Nat)
    (ck sk s : Nat) (cac leaf : X509Cert) (der : Bytes)
    (h1 : env.newPrivateKey r = .ok ck)
    (h2 : env.newSelfSignedCACert ("webhook-certmgmt-ca:" ++ cfg.commonName)
        ck = .ok cac)
    (h3 : env.newPrivateKey (r + 1) = .ok sk)
    (h4 : env.randSerial (r + 2) = .ok s)
    (hcn : cfg.commonName.length ≠ 0)
    (h6 : env.createCertificate
        (certTmpl env (serverCertConfig cfg) s cac cfg.validity)
        cac sk ck = .ok der)
    (h7 : env.parseCertificate der = .ok leaf)
    (hval : IsValid env (freshBundle env ck cac sk leaf)
        (cfg.dnsNames.headD "") cfg.rest = true) :
    UpdateCertificate env none cfg r =
      .ok (some (freshBundle env ck cac sk leaf), true, r + 3) ∧
    (freshBundle env ck cac sk leaf).cert ≠ none ∧
    (freshBundle env ck cac sk leaf).key ≠ none ∧
    (freshBundle env ck cac sk leaf).cacert ≠ none ∧
    (freshBundle env ck cac sk leaf).cakey ≠ none ∧
    UpdateCertificate env (some (freshBundle env ck cac sk leaf)) cfg (r + 3) =
      .ok (some (freshBundle env ck cac sk leaf), false, r + 3) := by
  refine ⟨?_, by simp [freshBundle], by simp [freshBundle],
    by simp [freshBundle], by simp [freshBundle],
    updateCertificate_valid env cfg _ _ hval⟩
  unfold UpdateCertificate
  dsimp only [Option.getD]
  rw [if_neg (by simp [IsValid])]
  dsimp only [caCheck]
  rw [if_pos (Or.inr rfl)]
  rw [h1]
  dsimp only
  rw [h2]
  dsimp only
  unfold issueServer NewSignedCert
  rw [h3]
  dsimp only
  rw [show r + 1 + 1 = r + 2 from rfl, h4]
  dsimp only
  rw [if_neg (by simpa [serverCertConfig] using hcn),
    if_neg (by simp [serverCertConfig])]
  rw [h6]
  dsimp only
  rw [h7]
  rfl

/-- Witness for C4: a concrete fresh issuance at the toy environment,
followed by the unchanged fast path. -/
theorem UpdateCertificate_fresh_issuance_w :
    UpdateCertificate toyEnv none cfg0 0 =
      .ok (some (freshBundle toyEnv 0 toyCA 1 toyLeaf), true, 3) ∧
    (freshBundle toyEnv 0 toyCA 1 toyLeaf).cert ≠ none ∧
    (freshBundle toyEnv 0 toyCA 1 toyLeaf).key ≠ none ∧
    (freshBundle toyEnv 0 toyCA 1 toyLeaf).cacert ≠ none ∧
    (freshBundle toyEnv 0 toyCA 1 toyLeaf).cakey ≠ none ∧
    UpdateCertificate toyEnv (some (freshBundle toyEnv 0 toyCA 1 toyLeaf))
        cfg0 3 =
      .ok (some (freshBundle toyEnv 0 toyCA 1 toyLeaf), false, 3) :=
  UpdateCertificate_fresh_issuance toyEnv cfg0 0 0 1 0 toyCA toyLeaf [3]
    rfl rfl rfl rfl (by decide) rfl rfl (by decide)

/-- C5: whenever `UpdateCertificate` regenerates the server certificate
(the working bundle fails `IsValid`): if the existing CA certificate is
present, valid against itself with the fixed 5-day lookahead, and its CA
key parses from PEM as an RSA key, then the output bundle's CA-certificate
and CA-key bytes are identical to the input's; otherwise (CA absent,
self-check failed, or CA key not parsing as an RSA key) both CA fields are
overwritten with a freshly issued self-signed CA before the server
certificate is issued.  The hypotheses state that the external library
calls succeed and that a PEM blob accepted by `AppendCertsFromPEM` also
parses via `ParseCertsPEM`. -/
theorem UpdateCertificate_ca_frame (env : Env) (cfg : Config) (old : Info)
    (r : Nat)
    (hnv : IsValid env old (cfg.dnsNames.headD "") cfg.rest = false)
    (hcn : cfg.commonName.length ≠ 0)
    (hkg : ∀ n, ∃ k, env.newPrivateKey n = .ok k)
    (hrs : ∀ n, ∃ s, env.randSerial n = .ok s)
    (hss : ∀ cn k, ∃ c, env.newSelfSignedCACert cn k = .ok c)
    (hcc : ∀ t ca k ck, ∃ der c, env.createCertificate t ca k ck = .ok der ∧
        env.parseCertificate der = .ok c)
    (hcoh : ∀ b, env.appendCertsFromPEM b = true →
        ∃ cs, env.parseCertsPEM b = .ok cs) :
    (∀ cab k, old.cacert = some cab →
      Valid env (old.cakey.getD []) cab cab "" (5 * time.hour * 24) = true →
      env.parsePrivateKeyPEM (old.cakey.getD []) = .ok (some k) →
      ∃ i rf, UpdateCertificate env (some old) cfg r = .ok (some i, true, rf) ∧
        i.cacert = old.cacert ∧ i.cakey = old.cakey) ∧
    ((old.cacert = none ∨
      Valid env (old.cakey.getD []) (old.cacert.getD []) (old.cacert.getD [])
        "" (5 * time.hour * 24) = false ∨
      ∀ k, env.parsePrivateKeyPEM (old.cakey.getD []) ≠ .ok (some k)) →
      ∃ ck cac i rf, env.newPrivateKey r = .ok ck ∧
        env.newSelfSignedCACert ("webhook-certmgmt-ca:" ++ cfg.commonName)
          ck = .ok cac ∧
        UpdateCertificate env (some old) cfg r = .ok (some i, true, rf) ∧
        i.cakey = some (env.encodePrivateKeyPEM ck) ∧
        i.cacert = some (env.encodeCertPEM cac)) := by
  constructor
  · intro cab k hca hvca hk
    have happ := valid_append env (old.cakey.getD []) cab cab ""
      (5 * time.hour * 24) hvca
    obtain ⟨cs, hcs⟩ := hcoh cab happ
    have hck : caCheck env old = (true, some k, some (cs.headD default)) := by
      unfold caCheck
      rw [hca]
      dsimp only
      rw [if_pos hvca, hk, hcs]
      rfl
    obtain ⟨sk, leaf, hIS⟩ :=
      issueServer_ok env cfg old k (cs.headD default) r hcn hkg hrs hcc
    refine ⟨{ old with
        key := some (env.encodePrivateKeyPEM sk)
        cert := some (env.encodeCertPEM leaf) }, r + 2, ?_, ?_, ?_⟩
    · unfold UpdateCertificate
      dsimp only [Option.getD]
      rw [if_neg (by rw [hnv]; exact Bool.false_ne_true)]
      rw [hck]
      dsimp only
      rw [if_neg (by simp [hca])]
      exact hIS
    · simp
    · simp
  · intro hbad
    have hok : (caCheck env old).1 = false := by
      unfold caCheck
      rcases hca : old.cacert with _ | cab
      · rfl
      · dsimp only
        rcases hbad with h | h | h
        · rw [h] at hca
          exact Option.noConfusion hca
        · rw [hca] at h
          simp only [Option.getD_some] at h
          rw [if_neg (by simp [h])]
        · by_cases hv : Valid env (old.cakey.getD []) cab cab ""
              (5 * time.hour * 24) = true
          · rw [if_pos hv]
            rcases hp : env.parsePrivateKeyPEM (old.cakey.getD []) with e | ko
            · rcases hpc : env.parseCertsPEM cab with e2 | cs2 <;> rfl
            · rcases ko with _ | k2
              · rcases hpc : env.parseCertsPEM cab with e2 | cs2 <;> rfl
              · exact absurd hp (h k2)
          · rw [if_neg hv]
    obtain ⟨ck, hck2⟩ := hkg r
    obtain ⟨cac, hcac⟩ := hss ("webhook-certmgmt-ca:" ++ cfg.commonName) ck
    obtain ⟨sk, leaf, hIS⟩ := issueServer_ok env cfg
      { old with cakey := some (env.encodePrivateKeyPEM ck),
                 cacert := some (env.encodeCertPEM cac) } ck cac (r + 1)
      hcn hkg hrs hcc
    refine ⟨ck, cac,
      { cert := some (env.encodeCertPEM leaf)
        key := some (env.encodePrivateKeyPEM sk)
        cacert := some (env.encodeCertPEM cac)
        cakey := some (env.encodePrivateKeyPEM ck) }, r + 3, hck2, hcac,
      ?_, ?_, ?_⟩
    · unfold UpdateCertificate
      dsimp only [Option.getD]
      rw [if_neg (by rw [hnv]; exact Bool.false_ne_true)]
      rcases hcc3 : caCheck env old with ⟨ok, ko, co⟩
      rw [hcc3] at hok
      dsimp only at hok
      subst hok
      dsimp only
      rw [if_pos (Or.inr rfl)]
      rw [hck2]
      dsimp only
      rw [hcac]
      dsimp only
      exact hIS
    · simp
    · simp

/-- Witness for C5: at the toy environment, a bundle with a healthy CA pair
but no server pair is renewed while reusing the CA bytes. -/
theorem UpdateCertificate_ca_frame_w :
    ∃ i rf, UpdateCertificate toyEnv (some info1) cfg0 0 =
        .ok (some i, true, rf) ∧
      i.cacert = info1.cacert ∧ i.cakey = info1.cakey :=
  (UpdateCertificate_ca_frame toyEnv cfg0 info1 0 (by decide) (by decide)
      (fun n => ⟨n, rfl⟩) (fun _ => ⟨0, rfl⟩) (fun _ _ => ⟨toyCA, rfl⟩)
      (fun _ _ _ _ => ⟨[3], toyLeaf, rfl, rfl⟩)
      (fun _ _ => ⟨[toyCA], rfl⟩)).1
    [9] 0 rfl (by decide) rfl
